import Mathlib

/-!
Verification of `map_Lupton04` from
`src/research/object_detection/utils/lupton_rgb.py`.

The function receives a 4-dimensional batch of images (axes: image, row,
column, channel) and parameters `beta`, `alpha`, `Q`, `bandScalings`, `args`.
Its body (lines 114-152) performs, in order:

* line 114: `imagesTensor[:, :, :, 0:3] /= 255.0` - in-place division of the
  first three channels of every pixel by 255;
* line 115: `imagesTensor[:, :, :, 0:3] *= tf.convert_to_tensor(bandScalings)`
  - in-place per-channel multiplication by the length-3 band scalings; this
  broadcast requires the slice's channel dimension to be 3, so when the
  input's channel dimension is below 3 the in-place multiply raises a
  broadcast `ValueError` here and nothing further runs;
* line 116: `imagesTensor[:, :, :, 0:3] = tf.where(images[...] > 0.0,
  images[...], 0.0)` - the right-hand side reads the name `images`, which is
  bound nowhere (the parameter is `imagesTensor`), so evaluation stops with a
  `NameError` here;
* line 121: `radius = tf.reduce_sum(images[:, :, :, 0:3], axis=3)/beta`;
* line 122: `nlfac = tf.where(radius > 0.0,
  tf.math.asinh(alpha*Q*radius)/(Q*radius), 0.0)`;
* line 126: `imagesTensor[:, :, :, 0:3] *= nlfac`;
* line 152: `return imagesTensor * 255.0`.

We model the batch as nested lists of reals, give a faithful execution model
`map_Lupton04_run` (in which the reference to the unbound name `images` is an
actual environment lookup, and the caller-visible state of the array is
tracked), and a denotation `map_Lupton04_denot` of the numeric computation the
body writes down when the free name `images` is read as `imagesTensor`.
-/

namespace LuptonRGB

noncomputable section

open Real

/-- A pixel: the innermost (channel) axis of the 4-d array. -/
abbrev Pixel := List ℝ

/-- A 4-dimensional batch: image, row, column, channel axes. -/
abbrev Batch := List (List (List Pixel))

/-- Indexed map over the channels of a pixel, carrying the channel index.
Used to model operations restricted to the slice `[:, :, :, 0:3]`, which
touch only channels of index `< 3`. -/
def mapChan (f : ℕ → ℝ → ℝ) : ℕ → Pixel → Pixel
  | _, [] => []
  | i, v :: rest => f i v :: mapChan f (i + 1) rest

/-- Apply a pixel transformation at every pixel of the batch. -/
def mapPixels (f : Pixel → Pixel) (b : Batch) : Batch :=
  b.map fun im => im.map fun row => row.map f

/-- Entry `i` of the `bandScalings` triple (default `[1.000, 1.176, 1.818]`
in the source); broadcast against the three channels of the slice. -/
def bandScalingAt (bs : ℝ × ℝ × ℝ) (i : ℕ) : ℝ :=
  if i = 0 then bs.1 else if i = 1 then bs.2.1 else bs.2.2

/-- Line 114: `imagesTensor[:, :, :, 0:3] /= 255.0`. -/
def step114 (b : Batch) : Batch :=
  mapPixels (mapChan (fun i v => if i < 3 then v / 255 else v) 0) b

/-- Line 115: `imagesTensor[:, :, :, 0:3] *= tf.convert_to_tensor(bandScalings)`. -/
def step115 (bs : ℝ × ℝ × ℝ) (b : Batch) : Batch :=
  mapPixels (mapChan (fun i v => if i < 3 then v * bandScalingAt bs i else v) 0) b

/-- Line 116 with the free name `images` read as `imagesTensor` (used by the
denotation): `tf.where(x > 0.0, x, 0.0)` on the first three channels. -/
def step116 (b : Batch) : Batch :=
  mapPixels (mapChan (fun i v => if i < 3 then (if v > 0 then v else 0) else v) 0) b

/-- Line 121: `radius = tf.reduce_sum(images[:, :, :, 0:3], axis=3)/beta`.
The channel axis is summed away, so the result has one scalar per pixel.
Note the division by `beta` (the docstring of `map_Lupton04` instead states
`rad = beta * (r + g + b)`). -/
def radiusTensor (beta : ℝ) (b : Batch) : List (List (List ℝ)) :=
  b.map fun im => im.map fun row => row.map fun px => (px.take 3).sum / beta

/-- Line 122, pointwise: `tf.where(radius > 0.0,
tf.math.asinh(alpha*Q*radius)/(Q*radius), 0.0)`. -/
def nlfacOf (alpha Q radius : ℝ) : ℝ :=
  if radius > 0 then Real.arsinh (alpha * Q * radius) / (Q * radius) else 0

/-- Line 126: `imagesTensor[:, :, :, 0:3] *= nlfac`. The `(N, H, W)`-shaped
`nlfac` tensor broadcasts against the channel axis: each of the first three
channels of a pixel is multiplied by that pixel's factor. -/
def step126 (alpha Q : ℝ) (b : Batch) (rad : List (List (List ℝ))) : Batch :=
  List.zipWith (fun im rim =>
    List.zipWith (fun row rrow =>
      List.zipWith (fun px r =>
        mapChan (fun i v => if i < 3 then v * nlfacOf alpha Q r else v) 0 px)
        row rrow)
      im rim)
    b rad

/-- Line 152: `return imagesTensor * 255.0` (all channels, no slice). -/
def scale255 (b : Batch) : Batch :=
  mapPixels (fun px => px.map fun v => v * 255) b

/-- Python exceptions relevant to the claims: the `NameError` the body can
raise at line 116, the broadcast `ValueError` line 115 raises when the
channel dimension of the slice is below 3, and the `ShapeError` /
`InvalidParameterError` the specification says the function raises (no such
classes occur in the source). -/
inductive PyError
  | nameError
  | valueError
  | shapeError
  | invalidParameterError
deriving DecidableEq

/-- Python name resolution against an environment of array-valued locals:
looking up an unbound name is a `NameError`. -/
def lookupName (x : String) : List (String × Batch) → Except PyError Batch
  | [] => .error .nameError
  | (y, v) :: rest => if x = y then .ok v else lookupName x rest

/-- Line 115's broadcast precondition: the in-place multiply of the
`[:, :, :, 0:3]` slice by the length-3 `bandScalings` requires the slice's
channel dimension to be 3, that is, every pixel to have at least 3
channels (a channel dimension above 3 is fine: the slice still has width
3).  When this fails, line 115 raises a broadcast `ValueError` and line 116
is never reached.  (In this nested-list model an empty batch carries no
channel dimension of its own, so a batch with no pixels trivially
satisfies the condition.) -/
def pixelsBroadcastOk (b : Batch) : Bool :=
  b.all fun im => im.all fun row => row.all fun px => decide (3 ≤ px.length)

/-- Line 115 as executed: the in-place multiply by `bandScalings` when the
slice broadcasts, the broadcast `ValueError` otherwise. -/
def step115run (bs : ℝ × ℝ × ℝ) (b : Batch) : Except PyError Batch :=
  if pixelsBroadcastOk b then .ok (step115 bs b) else .error .valueError

/-- Outcome of a call: the final contents of the caller's array (which the
body mutates in place), and either the returned batch or the exception. -/
structure RunResult where
  state : Batch
  result : Except PyError Batch

set_option linter.unusedVariables false

/-- Line 116 as an assignment (dead in practice, since its right-hand side
fails to resolve `images`): the first three channels of every pixel of the
target are overwritten with the clamped channels of `imgs`. -/
def assign116 (imgs : Batch) (b : Batch) : Batch :=
  List.zipWith (fun im iim =>
    List.zipWith (fun row irow =>
      List.zipWith (fun px ipx =>
        mapChan (fun i v =>
          if i < 3 then (let w := ipx.getD i 0; if w > 0 then w else 0) else v)
          0 px)
        row irow)
      im iim)
    b imgs

/-- Faithful model of a call to `map_Lupton04` (lines 114-152).  Line 114
divides the first three channels of every pixel by 255 in place (a scalar
broadcast, total on any float array).  Line 115 multiplies the channel
slice in place by the length-3 `bandScalings`; when the channel dimension
is below 3 this broadcast fails with `ValueError` and the call stops,
leaving only line 114's division applied.  Otherwise line 116 then
evaluates the name `images`, which is looked up in an environment whose
only array-valued binding is the parameter `imagesTensor`, so the lookup
fails and the call stops with `NameError`.  The remaining lines model the
rest of the body and are unreachable.  The `args` parameter is modelled as
the keyword dictionary of the source (every use of it in the body is
commented out). -/
def map_Lupton04_run (imagesTensor : Batch) (beta alpha Q : ℝ)
    (bandScalings : ℝ × ℝ × ℝ) (args : List (String × ℝ)) : RunResult :=
  let t1 := step114 imagesTensor
  match step115run bandScalings t1 with
  | .error e => ⟨t1, .error e⟩
  | .ok t2 =>
    match lookupName "images" [("imagesTensor", t2)] with
    | .error e => ⟨t2, .error e⟩
    | .ok imgs =>
      let t3 := assign116 imgs t2
      match lookupName "images" [("imagesTensor", t3)] with
      | .error e => ⟨t3, .error e⟩
      | .ok imgs2 =>
        let rad := radiusTensor beta imgs2
        let t4 := step126 alpha Q t3 rad
        ⟨t4, .ok (scale255 t4)⟩

/-- The numeric computation the body of `map_Lupton04` writes down, with the
free name `images` read as `imagesTensor` (the body's evident intent; the
literal body, modelled by `map_Lupton04_run`, aborts with a `NameError`
instead).  The `args` parameter does not occur in any live line and is
omitted here. -/
def map_Lupton04_denot (beta alpha Q : ℝ) (bandScalings : ℝ × ℝ × ℝ)
    (imagesTensor : Batch) : Batch :=
  let t1 := step114 imagesTensor
  let t2 := step115 bandScalings t1
  let t3 := step116 t2
  let rad := radiusTensor beta t3
  let t4 := step126 alpha Q t3 rad
  scale255 t4

/-- Per-pixel form of lines 114-126: scale each of the first three channels
by `bandScalingAt bs i / 255` and clamp it at zero, compute the pixel's
radius, and multiply the first three channels by the pixel's shared
nonlinearity factor. -/
def pixelStretch (beta alpha Q : ℝ) (bs : ℝ × ℝ × ℝ) (px : Pixel) : Pixel :=
  let scaled := mapChan (fun i v =>
    if i < 3 then (let w := v / 255 * bandScalingAt bs i; if w > 0 then w else 0)
    else v) 0 px
  let rad := (scaled.take 3).sum / beta
  mapChan (fun i v => if i < 3 then v * nlfacOf alpha Q rad else v) 0 scaled

/-- The stretch (lines 114-126) applied at every pixel of the batch. -/
def stretchDenot (beta alpha Q : ℝ) (bs : ℝ × ℝ × ℝ) (b : Batch) : Batch :=
  mapPixels (pixelStretch beta alpha Q bs) b

/-- Every value of the batch, flattened. -/
def allValues (b : Batch) : List ℝ :=
  (b.map fun im => (im.map fun row => row.flatten).flatten).flatten

/-- Modelled from the spec: "the single global maximum value found anywhere
in the batch". -/
def batchMax (b : Batch) : ℝ := (allValues b).foldr max 0

/-- Modelled from the spec: "clip every value to the closed interval
[0, 255]". -/
def clip0255 (v : ℝ) : ℝ := min (max v 0) 255

/-- Modelled from the spec (steps 7-8 of section 4.1, the steps claim C2
attributes to the code): divide every value by the single global maximum of
the batch, multiply by `255 * oversaturateFactor`, and clip to [0, 255]. -/
def spec_normalize_scale_clip (oversaturateFactor : ℝ) (b : Batch) : Batch :=
  let m := batchMax b
  mapPixels (fun px => px.map fun v => clip0255 (v / m * (255 * oversaturateFactor))) b

/-- The value at index (0,0,0,0) of a batch. -/
def elem0000 (b : Batch) : ℝ :=
  ((((b.headD []).headD []).headD []).headD 0)

/-- `tf.where(v > 0.0, v, 0.0)` pointwise, as used on lines 116 and 122. -/
def clampPos (v : ℝ) : ℝ := if v > 0 then v else 0

/-- The array a call hands back to the caller, when it returns at all. -/
def returnedArray (r : RunResult) : Option Batch :=
  match r.result with
  | .ok out => some out
  | .error _ => none

end

/-! ### Structural lemmas about the embedding -/

theorem lookup_images (t : Batch) :
    lookupName "images" [("imagesTensor", t)] = .error .nameError := by
  simp [lookupName]

theorem mapChan_mapChan (f g : ℕ → ℝ → ℝ) (i : ℕ) (px : Pixel) :
    mapChan g i (mapChan f i px) = mapChan (fun j v => g j (f j v)) i px := by
  induction px generalizing i with
  | nil => rfl
  | cons v rest ih => simp [mapChan, ih]

@[simp]
theorem mapChan_length (f : ℕ → ℝ → ℝ) (i : ℕ) (px : Pixel) :
    (mapChan f i px).length = px.length := by
  induction px generalizing i with
  | nil => rfl
  | cons v rest ih => simp [mapChan, ih]

/-- Line 114's scalar broadcast changes no shape, so whether line 115's
broadcast succeeds is decided by the caller's original batch. -/
theorem pixelsBroadcastOk_step114 (b : Batch) :
    pixelsBroadcastOk (step114 b) = pixelsBroadcastOk b := by
  simp [pixelsBroadcastOk, step114, mapPixels, List.all_map, Function.comp_def]

theorem mapPixels_mapPixels (f g : Pixel → Pixel) (b : Batch) :
    mapPixels g (mapPixels f b) = mapPixels (fun px => g (f px)) b := by
  simp [mapPixels, List.map_map, Function.comp]

theorem zipWith_map_map {α β γ δ : Type} (f : β → γ → δ) (g1 : α → β) (g2 : α → γ)
    (l : List α) :
    List.zipWith f (l.map g1) (l.map g2) = l.map fun x => f (g1 x) (g2 x) := by
  induction l with
  | nil => rfl
  | cons x xs ih => simp [ih]

theorem pixel_scale_clamp_eq (bs : ℝ × ℝ × ℝ) (px : Pixel) :
    mapChan (fun i v => if i < 3 then (if v > 0 then v else 0) else v) 0
      (mapChan (fun i v => if i < 3 then v * bandScalingAt bs i else v) 0
        (mapChan (fun i v => if i < 3 then v / 255 else v) 0 px)) =
    mapChan (fun i v => if i < 3 then
      (let w := v / 255 * bandScalingAt bs i; if w > 0 then w else 0) else v) 0 px := by
  rw [mapChan_mapChan, mapChan_mapChan]
  congr 1
  funext j v
  by_cases hj : j < 3
  · simp [hj]
  · simp [hj]

/-- Lines 114-126 of the body, fused into one map over the pixels: the
sequential tensor pipeline equals the per-pixel stretch. -/
theorem stretch_pipeline_eq (beta alpha Q : ℝ) (bs : ℝ × ℝ × ℝ) (b : Batch) :
    step126 alpha Q (step116 (step115 bs (step114 b)))
        (radiusTensor beta (step116 (step115 bs (step114 b)))) =
      stretchDenot beta alpha Q bs b := by
  have hpx : step116 (step115 bs (step114 b)) =
      mapPixels (fun px => mapChan (fun i v => if i < 3 then
        (let w := v / 255 * bandScalingAt bs i; if w > 0 then w else 0) else v) 0 px) b := by
    rw [step114, step115, step116, mapPixels_mapPixels, mapPixels_mapPixels]
    congr 1
    funext px
    exact pixel_scale_clamp_eq bs px
  rw [hpx]
  simp only [stretchDenot, pixelStretch, step126, radiusTensor, mapPixels,
    List.map_map, Function.comp, zipWith_map_map]
  congr 1

/-! ### The claims -/

/-- Claim C9, counterexample: a 1 x 1 x 1 x 2 batch is an input on which the
call raises the broadcast `ValueError` of line 115 - the length-3
`bandScalings` cannot be broadcast against a 2-channel slice - and not the
claimed `NameError`: line 116's unbound name is never reached. -/
theorem run_two_channel_valueError :
    (map_Lupton04_run [[[[1, 2]]]] 3 0.06 3.5 (1, 1.176, 1.818) []).result =
        .error .valueError ∧
      PyError.valueError ≠ PyError.nameError := by
  refine ⟨?_, by decide⟩
  simp [map_Lupton04_run, step115run, pixelsBroadcastOk, step114, mapPixels, mapChan]

/-- Claim C9 (corrected): the name `images` (lines 116 and 121) is indeed
bound nowhere - the parameter is `imagesTensor` - so no call completes
normally; but the `NameError` is raised only on inputs whose channel slice
broadcasts against the length-3 `bandScalings` (every pixel has at least 3
channels).  An input whose channel dimension is below 3 fails earlier, with
the broadcast `ValueError` of line 115. -/
theorem run_error_classified (b : Batch) (beta alpha Q : ℝ) (bs : ℝ × ℝ × ℝ)
    (a : List (String × ℝ)) :
    (map_Lupton04_run b beta alpha Q bs a).result =
      .error (if pixelsBroadcastOk b then PyError.nameError else PyError.valueError) := by
  cases h : pixelsBroadcastOk b with
  | true => simp [map_Lupton04_run, step115run, pixelsBroadcastOk_step114, h, lookup_images]
  | false => simp [map_Lupton04_run, step115run, pixelsBroadcastOk_step114, h]

/-- Claim C10 (confirmed): the `args` parameter of `map_Lupton04` has no
effect on the result: two calls identical except for `args` have identical
outcomes (both the returned/raised result and the final state of the
caller's array).  Every use of `args` in the body is commented out. -/
theorem run_args_ignored (b : Batch) (beta alpha Q : ℝ) (bs : ℝ × ℝ × ℝ)
    (a1 a2 : List (String × ℝ)) :
    map_Lupton04_run b beta alpha Q bs a1 = map_Lupton04_run b beta alpha Q bs a2 := rfl

/-- Claim C1, counterexample: at a perfectly valid input (a 1 x 1 x 1 x 3
batch with values in [0, 255] and the default parameters) the call returns
no array at all - it raises `NameError` - so in particular no array with
the input's shape and values in [0, 255] is returned. -/
theorem run_valid_input_no_output :
    returnedArray (map_Lupton04_run [[[[100, 50, 25]]]] 3 0.06 3.5 (1, 1.176, 1.818) []) =
      none := by
  simp [returnedArray, map_Lupton04_run, step115run, pixelsBroadcastOk, step114,
    mapPixels, mapChan, lookup_images]

/-- Claim C1 (corrected): `map_Lupton04` never returns an array - every
call, whatever the input batch and parameters, raises before line 152
(with `NameError` from the undefined name `images` at line 116, or, when
the channel dimension is below 3, with the broadcast `ValueError` of line
115) - so no same-shaped, [0, 255]-valued output is ever produced. -/
theorem run_never_returns (b : Batch) (beta alpha Q : ℝ) (bs : ℝ × ℝ × ℝ)
    (a : List (String × ℝ)) :
    returnedArray (map_Lupton04_run b beta alpha Q bs a) = none := by
  cases h : pixelsBroadcastOk b with
  | true =>
    simp [returnedArray, map_Lupton04_run, step115run, pixelsBroadcastOk_step114, h,
      lookup_images]
  | false =>
    simp [returnedArray, map_Lupton04_run, step115run, pixelsBroadcastOk_step114, h]

/-- Claim C5, counterexample: a call with `Q = 0` on a well-shaped batch
raises `NameError`, not `InvalidParameterError`; and a call whose channel
dimension is 2 raises the broadcast `ValueError` of line 115, not
`ShapeError` - the body contains no validation at all, and neither
exception class exists in the source. -/
theorem run_no_declared_errors :
    (map_Lupton04_run [[[[1, 2, 3]]]] 3 0.06 0 (1, 1.176, 1.818) []).result =
        .error .nameError ∧
      PyError.nameError ≠ PyError.invalidParameterError ∧
      (map_Lupton04_run [[[[1, 2]]]] 3 0.06 3.5 (1, 1.176, 1.818) []).result =
        .error .valueError ∧
      PyError.valueError ≠ PyError.shapeError := by
  refine ⟨?_, by decide, ?_, by decide⟩ <;>
    simp [map_Lupton04_run, step115run, pixelsBroadcastOk, step114, mapPixels, mapChan,
      lookup_images]

/-- Claim C5 (corrected): `map_Lupton04` performs no shape or parameter
validation of its own: on any batch whose channel slice broadcasts, a call
with `Q = 0` and a call with `beta = 0` fail with the same `NameError` as
every other call (no `InvalidParameterError`); a call whose channel
dimension is below 3 fails with the incidental broadcast `ValueError` of
line 115, not a `ShapeError`; and a call with more than 3 channels is not
rejected at all (it too fails with the `NameError`).  No `ShapeError` or
`InvalidParameterError` class exists in the source. -/
theorem run_no_validation (b : Batch) (beta alpha : ℝ) (bs : ℝ × ℝ × ℝ)
    (a : List (String × ℝ)) :
    (pixelsBroadcastOk b = true →
        (map_Lupton04_run b beta alpha 0 bs a).result = .error .nameError ∧
          (map_Lupton04_run b 0 alpha 1 bs a).result = .error .nameError) ∧
      (map_Lupton04_run [[[[1, 2]]]] beta alpha 1 bs a).result = .error .valueError ∧
      (map_Lupton04_run [[[[1, 2, 3, 4]]]] beta alpha 1 bs a).result = .error .nameError := by
  constructor
  · intro h
    constructor <;>
      simp [map_Lupton04_run, step115run, pixelsBroadcastOk_step114, h, lookup_images]
  · constructor <;>
      simp [map_Lupton04_run, step115run, pixelsBroadcastOk_step114, pixelsBroadcastOk,
        step114, mapPixels, mapChan, lookup_images]

/-- Claim C6 (code_bug): the all-zero batch is mapped by the computation the
body writes down (`map_Lupton04_denot`, no division by a global maximum
occurs anywhere in it) to the all-zero batch, exactly as the claim states -
but the actual call still fails with `NameError` like every call, because
of the unbound name `images`, so no output is produced at all. -/
theorem zero_batch_behavior :
    (map_Lupton04_run [[[[0, 0, 0]]]] 3 0.06 3.5 (1, 1.176, 1.818) []).result =
        .error .nameError ∧
      map_Lupton04_denot 3 0.06 3.5 (1, 1.176, 1.818) [[[[0, 0, 0]]]] = [[[[0, 0, 0]]]] := by
  constructor
  · simp [map_Lupton04_run, step115run, pixelsBroadcastOk, step114, mapPixels, mapChan,
      lookup_images]
  · simp [map_Lupton04_denot, step114, step115, step116, radiusTensor, step126,
      scale255, mapPixels, mapChan, nlfacOf, bandScalingAt]

/-- Claim C8, counterexample: the call mutates the caller's array in place -
after the (failing) call on the batch `[[[[255, 0, 0]]]]`, position
(0,0,0,0) of the caller's array holds `1` (= 255/255 * 1.000), no longer
`255`. -/
theorem run_mutates_input_concrete :
    elem0000 ((map_Lupton04_run [[[[255, 0, 0]]]] 3 0.06 3.5 (1, 1.176, 1.818) []).state) <
      elem0000 [[[[(255 : ℝ), 0, 0]]]] := by
  simp [map_Lupton04_run, step115run, pixelsBroadcastOk, lookup_images, step114, step115,
    mapPixels, mapChan, bandScalingAt, elem0000]

/-- Claim C8 (corrected): `map_Lupton04` does mutate caller-owned state.
Line 114 divides the first three channels of every pixel by 255 in place;
when the channel slice broadcasts against the length-3 `bandScalings`
(every pixel has at least 3 channels), line 115 then further multiplies
channel `i` by `bandScalings[i]` in place, so after the (failing) call the
array holds its original channel values multiplied by
`bandScalings[i] / 255`; when the broadcast fails (channel dimension below
3), the call dies at line 115 and the array is left holding its original
values divided by 255.  In neither case does the caller's array hold its
original values. -/
theorem run_state_mutated (b : Batch) (beta alpha Q : ℝ) (bs : ℝ × ℝ × ℝ)
    (a : List (String × ℝ)) :
    (pixelsBroadcastOk b = true →
        (map_Lupton04_run b beta alpha Q bs a).state =
          mapPixels (mapChan (fun i v => if i < 3 then v * bandScalingAt bs i / 255 else v) 0)
            b) ∧
      (pixelsBroadcastOk b = false →
        (map_Lupton04_run b beta alpha Q bs a).state = step114 b) := by
  constructor
  · intro h
    have h1 : (map_Lupton04_run b beta alpha Q bs a).state = step115 bs (step114 b) := by
      simp [map_Lupton04_run, step115run, pixelsBroadcastOk_step114, h, lookup_images]
    rw [h1, step115, step114, mapPixels_mapPixels]
    congr 1
    funext px
    rw [mapChan_mapChan]
    congr 1
    funext j v
    by_cases hj : j < 3
    · simp [hj]
      ring
    · simp [hj]
  · intro h
    simp [map_Lupton04_run, step115run, pixelsBroadcastOk_step114, h]

/-- Claim C3 (code_bug): line 121 computes the per-pixel radius as the sum
of the channel values **divided** by `beta` - `(1+1+1)/2 = 3/2` at
`beta = 2` - not multiplied by `beta` as both the claim and the function's
own docstring (`rad = beta * (r + g + b)`) state, which would give `6`. -/
theorem radius_divides_by_beta :
    radiusTensor 2 [[[[(1 : ℝ), 1, 1]]]] = [[[(3 / 2 : ℝ)]]] ∧
      (3 / 2 : ℝ) < 2 * (1 + 1 + 1) := by
  constructor
  · simp [radiusTensor]
    norm_num
  · norm_num

/-- The radius (line 121) of a three-channel pixel, written out: the sum of
the scaled, zero-clamped channel values, divided by `beta`. -/
noncomputable def pixelRadius (beta : ℝ) (bs : ℝ × ℝ × ℝ) (r g b : ℝ) : ℝ :=
  (clampPos (r / 255 * bs.1) + (clampPos (g / 255 * bs.2.1) + clampPos (b / 255 * bs.2.2)))
    / beta

/-- Claim C4 (confirmed): in the computation the body writes down, all three
channels of a pixel are multiplied by one shared per-pixel factor
`nlfacOf alpha Q radius`, and that factor equals
`asinh(alpha * Q * radius) / (Q * radius)` when the radius is strictly
positive and exactly 0 when the radius is at most 0. -/
theorem denot_pixel_shared_factor (beta alpha Q r g b : ℝ) (bs : ℝ × ℝ × ℝ) :
    (map_Lupton04_denot beta alpha Q bs [[[[r, g, b]]]] =
        [[[[clampPos (r / 255 * bs.1) * nlfacOf alpha Q (pixelRadius beta bs r g b) * 255,
            clampPos (g / 255 * bs.2.1) * nlfacOf alpha Q (pixelRadius beta bs r g b) * 255,
            clampPos (b / 255 * bs.2.2) * nlfacOf alpha Q (pixelRadius beta bs r g b) * 255]]]]) ∧
      (∀ radius : ℝ, 0 < radius →
        nlfacOf alpha Q radius = Real.arsinh (alpha * Q * radius) / (Q * radius)) ∧
      (∀ radius : ℝ, radius ≤ 0 → nlfacOf alpha Q radius = 0) := by
  refine ⟨?_, fun radius h => by rw [nlfacOf, if_pos h],
    fun radius h => by rw [nlfacOf, if_neg (not_lt.mpr h)]⟩
  simp [map_Lupton04_denot, step114, step115, step116, radiusTensor, step126, scale255,
    mapPixels, mapChan, bandScalingAt, pixelRadius, clampPos]

/-- Claim C2 (corrected): after the per-pixel nonlinear stretch the code
multiplies every value by 255 and returns that directly (line 152): there
is no division by a global maximum, no `oversaturateFactor` parameter, and
no clipping anywhere in the body (and an actual call never even reaches
this step, failing earlier with `NameError`). -/
theorem denot_is_scaled_stretch (beta alpha Q : ℝ) (bs : ℝ × ℝ × ℝ) (b : Batch) :
    map_Lupton04_denot beta alpha Q bs b = scale255 (stretchDenot beta alpha Q bs b) := by
  simp only [map_Lupton04_denot]
  rw [stretch_pipeline_eq]

/-! ### Analytic facts about the nonlinearity factor

`nlfacOf alpha Q` is `r ↦ asinh(alpha*Q*r)/(Q*r)` on positive radii.  Since
`asinh(x)/x` is strictly decreasing on positive `x` (equivalently,
`sinh(x)/x` is strictly increasing), the factor is strictly decreasing in
the radius, not non-decreasing. -/

theorem sinh_lt_mul_cosh {x : ℝ} (hx : 0 < x) : Real.sinh x < x * Real.cosh x := by
  have grow : StrictMonoOn (fun y : ℝ => y * Real.cosh y - Real.sinh y) (Set.Ici 0) := by
    apply strictMonoOn_of_deriv_pos (convex_Ici 0)
    · exact ((continuous_id.mul Real.continuous_cosh).sub Real.continuous_sinh).continuousOn
    · intro y hy
      rw [interior_Ici, Set.mem_Ioi] at hy
      have hd : HasDerivAt (fun y : ℝ => y * Real.cosh y - Real.sinh y)
          (1 * Real.cosh y + y * Real.sinh y - Real.cosh y) y :=
        ((hasDerivAt_id y).mul (Real.hasDerivAt_cosh y)).sub (Real.hasDerivAt_sinh y)
      rw [hd.deriv]
      have hs : 0 < y * Real.sinh y := mul_pos hy (Real.sinh_pos_iff.mpr hy)
      nlinarith [hs]
  have h := grow (Set.left_mem_Ici) (Set.mem_Ici.mpr hx.le) hx
  simp only [zero_mul, Real.sinh_zero, sub_zero] at h
  linarith [h]

theorem sinh_div_strictMonoOn :
    StrictMonoOn (fun y : ℝ => Real.sinh y / y) (Set.Ioi 0) := by
  apply strictMonoOn_of_deriv_pos (convex_Ioi 0)
  · apply Real.continuous_sinh.continuousOn.div continuousOn_id
    intro y hy
    exact (Set.mem_Ioi.mp hy).ne'
  · intro y hy
    rw [isOpen_Ioi.interior_eq, Set.mem_Ioi] at hy
    have hd : HasDerivAt (fun y : ℝ => Real.sinh y / y)
        ((Real.cosh y * y - Real.sinh y * 1) / (y ^ 2)) y :=
      (Real.hasDerivAt_sinh y).div (hasDerivAt_id y) hy.ne'
    rw [hd.deriv]
    have h1 := sinh_lt_mul_cosh hy
    apply div_pos
    · nlinarith [h1]
    · positivity

theorem mul_arsinh_lt {a b : ℝ} (ha : 0 < a) (hab : a < b) :
    a * Real.arsinh b < b * Real.arsinh a := by
  have hs : 0 < Real.arsinh a := Real.arsinh_pos_iff.mpr ha
  have hst : Real.arsinh a < Real.arsinh b := Real.arsinh_lt_arsinh.mpr hab
  have key := sinh_div_strictMonoOn (Set.mem_Ioi.mpr hs)
    (Set.mem_Ioi.mpr (hs.trans hst)) hst
  rw [div_lt_div_iff₀ hs (hs.trans hst)] at key
  rw [Real.sinh_arsinh, Real.sinh_arsinh] at key
  linarith [key]

theorem arsinh_div_lt {c r1 r2 : ℝ} (hc : 0 < c) (h1 : 0 < r1) (h12 : r1 < r2) :
    Real.arsinh (c * r2) / r2 < Real.arsinh (c * r1) / r1 := by
  have h := mul_arsinh_lt (mul_pos hc h1) (by nlinarith : c * r1 < c * r2)
  rw [div_lt_div_iff₀ (h1.trans h12) h1]
  apply lt_of_mul_lt_mul_left (a := c) ?_ hc.le
  calc c * (Real.arsinh (c * r2) * r1) = c * r1 * Real.arsinh (c * r2) := by ring
    _ < c * r2 * Real.arsinh (c * r1) := h
    _ = c * (Real.arsinh (c * r1) * r2) := by ring

theorem arsinh_le_self {x : ℝ} (hx : 0 ≤ x) : Real.arsinh x ≤ x := by
  rcases hx.eq_or_lt with h | h
  · simp [← h, Real.arsinh_zero]
  · have h1 : x < Real.sinh x := Real.self_lt_sinh_iff.mpr h
    have h2 : Real.arsinh x ≤ Real.arsinh (Real.sinh x) := Real.arsinh_le_arsinh.mpr h1.le
    rwa [Real.arsinh_sinh] at h2

theorem arsinh_one_lt_one : Real.arsinh 1 < 1 := by
  have h1 : (1 : ℝ) < Real.sinh 1 := Real.self_lt_sinh_iff.mpr one_pos
  have h2 : Real.arsinh 1 < Real.arsinh (Real.sinh 1) := Real.arsinh_lt_arsinh.mpr h1
  rwa [Real.arsinh_sinh] at h2

/-- Claim C7, counterexample: with the valid positive parameters
`alpha = Q = 1` and radii `0 < 1 <= 2`, the factor at radius 2 is strictly
smaller than the factor at radius 1: the nonlinearity factor of line 122 is
decreasing in the radius, not non-decreasing. -/
theorem nlfac_not_nondecreasing :
    (0 : ℝ) < 1 ∧ (1 : ℝ) ≤ 2 ∧ nlfacOf 1 1 2 < nlfacOf 1 1 1 := by
  refine ⟨one_pos, one_le_two, ?_⟩
  have key := arsinh_div_lt (c := (1 : ℝ)) one_pos one_pos one_lt_two
  rw [nlfacOf, nlfacOf, if_pos (by norm_num : (2 : ℝ) > 0), if_pos (by norm_num : (1 : ℝ) > 0)]
  norm_num at key ⊢
  exact key

/-- Claim C7 (corrected): on strictly positive radii the nonlinearity factor
is monotonically non-increasing (for all `0 < r1 <= r2`,
`factor(r2) <= factor(r1)`, for any fixed positive `alpha` and `Q`), and it
is exactly 0 for every radius at most 0. -/
theorem nlfac_antitone (alpha Q : ℝ) (halpha : 0 < alpha) (hQ : 0 < Q) :
    (∀ r1 r2, 0 < r1 → r1 ≤ r2 → nlfacOf alpha Q r2 ≤ nlfacOf alpha Q r1) ∧
      (∀ r, r ≤ 0 → nlfacOf alpha Q r = 0) := by
  constructor
  · intro r1 r2 h1 h12
    rcases eq_or_lt_of_le h12 with h | hlt
    · rw [h]
    · have h2 : 0 < r2 := h1.trans hlt
      rw [nlfacOf, nlfacOf, if_pos h1, if_pos h2]
      have key := (arsinh_div_lt (mul_pos halpha hQ) h1 hlt).le
      have e2 : Real.arsinh (alpha * Q * r2) / (Q * r2) =
          Real.arsinh (alpha * Q * r2) / r2 / Q := by
        rw [div_div, mul_comm Q r2]
      have e1 : Real.arsinh (alpha * Q * r1) / (Q * r1) =
          Real.arsinh (alpha * Q * r1) / r1 / Q := by
        rw [div_div, mul_comm Q r1]
      rw [e1, e2]
      exact (div_le_div_iff_of_pos_right hQ).mpr key
  · intro r hr
    rw [nlfacOf, if_neg (not_lt.mpr hr)]

/-- Witness for `nlfac_antitone` at `alpha = Q = 1`, radii `1 <= 2` and
`-1 <= 0`. -/
theorem nlfac_antitone_witness :
    nlfacOf 1 1 2 ≤ nlfacOf 1 1 1 ∧ nlfacOf 1 1 (-1) = 0 :=
  ⟨(nlfac_antitone 1 1 one_pos one_pos).1 1 2 one_pos one_le_two,
    (nlfac_antitone 1 1 one_pos one_pos).2 (-1) (by norm_num)⟩

/-- Claim C2, counterexample: on the batch `[[[[255, 255, 255]]]]` with
`beta = 3`, `alpha = Q = 1`, unit band scalings and the spec's default
`oversaturateFactor = 2`, the value the code computes at position (0,0,0,0)
is `255 * asinh 1 < 255`, strictly below the `255` that the claimed
normalize-oversaturate-clip pipeline would produce there. -/
theorem denot_not_spec_normalized :
    elem0000 (map_Lupton04_denot 3 1 1 (1, 1, 1) [[[[255, 255, 255]]]]) <
      elem0000 (spec_normalize_scale_clip 2
        (stretchDenot 3 1 1 (1, 1, 1) [[[[255, 255, 255]]]])) := by
  have hpos : (0 : ℝ) < Real.arsinh 1 := Real.arsinh_pos_iff.mpr one_pos
  have hstretch : stretchDenot 3 1 1 (1, 1, 1) [[[[255, 255, 255]]]] =
      [[[[Real.arsinh 1, Real.arsinh 1, Real.arsinh 1]]]] := by
    simp [stretchDenot, pixelStretch, mapPixels, mapChan, bandScalingAt, nlfacOf]
    norm_num
  have hlhs : map_Lupton04_denot 3 1 1 (1, 1, 1) [[[[255, 255, 255]]]] =
      [[[[Real.arsinh 1 * 255, Real.arsinh 1 * 255, Real.arsinh 1 * 255]]]] := by
    simp [map_Lupton04_denot, step114, step115, step116, radiusTensor, step126,
      scale255, mapPixels, mapChan, bandScalingAt, nlfacOf]
    norm_num
  have hrhs : spec_normalize_scale_clip 2 [[[[Real.arsinh 1, Real.arsinh 1, Real.arsinh 1]]]] =
      [[[[255, 255, 255]]]] := by
    have hmax : batchMax [[[[Real.arsinh 1, Real.arsinh 1, Real.arsinh 1]]]] =
        Real.arsinh 1 := by
      simp [batchMax, allValues]
    simp [spec_normalize_scale_clip, hmax, mapPixels, clip0255,
      div_self hpos.ne']
  rw [hstretch, hlhs, hrhs]
  simp only [elem0000, List.headD]
  nlinarith [arsinh_one_lt_one, hpos]

end LuptonRGB
